import Mathlib

/-!
Shallow embedding of the GetTogether repository's form, widget and URL-routing
logic (src/events/forms.py, src/get_together/urls.py,
src/get_together/tests/teams.py), together with theorems settling the frozen
claims about it.

Python `datetime`/`time` values are modelled as records of `Nat` fields;
`strftime`/`strptime` for the fixed format strings used by the code are
modelled by explicit formatting and parsing functions over `List Char`.
-/

deriving instance DecidableEq for Except

namespace GetTogether

/-! ### strftime-style formatting helpers -/

/-- Zero-pad a natural number to two digits (`"%02d"`). -/
def pad2 (n : Nat) : String :=
  if n < 10 then "0" ++ toString n else toString n

/-- Zero-pad a natural number to four digits (`"%Y"` for years below 10000). -/
def pad4 (n : Nat) : String :=
  if n < 10 then "000" ++ toString n
  else if n < 100 then "00" ++ toString n
  else if n < 1000 then "0" ++ toString n
  else toString n

/-- The 12-hour display hour (`"%I"` as a number): 0 and 12 display as 12. -/
def hour12 (h : Nat) : Nat :=
  if h % 12 = 0 then 12 else h % 12

/-- `"%p"`: meridian marker for a 24-hour hour. -/
def meridianOf (h : Nat) : String :=
  if h < 12 then "AM" else "PM"

/-- Format an (hour, minute) pair as `strftime("%I:%M %p")` does. -/
def fmtTime12 (h m : Nat) : String :=
  pad2 (hour12 h) ++ ":" ++ pad2 m ++ " " ++ meridianOf h

/-- Format an (hour, minute, second) triple as `strftime("%H:%M:%S")` does. -/
def fmtTime24 (h m s : Nat) : String :=
  pad2 h ++ ":" ++ pad2 m ++ ":" ++ pad2 s

/-! ### strptime-style parsing (for the formats `"%I:%M %p"` and `"%H:%M:%S"`) -/

/-- Decimal digit value of a character, if it is a digit. -/
def digitVal (c : Char) : Option Nat :=
  if c.isDigit then some (c.toNat - 48) else none

/-- Read one or two decimal digits from the front of a character list,
as Python's `strptime` does for the numeric directives `%I`, `%H`, `%M`, `%S`. -/
def readNum2 : List Char → Option (Nat × List Char)
  | [] => none
  | c :: rest =>
    match digitVal c with
    | none => none
    | some d =>
      match rest with
      | [] => some (d, [])
      | c2 :: rest2 =>
        match digitVal c2 with
        | none => some (d, rest)
        | some d2 => some (10 * d + d2, rest2)

/-- Consume an expected literal character. -/
def expectChar (c : Char) : List Char → Option (List Char)
  | [] => none
  | c2 :: rest => if c2 = c then some rest else none

/-- `strptime(value, "%I:%M %p")`, returning (12-hour hour, minute, isPM):
hour must be 1..12, minute 0..59, meridian `AM` or `PM`. `none` models the
`ValueError` Python raises on a non-matching string. -/
def parseTime12 (s : String) : Option (Nat × Nat × Bool) := do
  let (h, cs) ← readNum2 s.toList
  if h < 1 ∨ 12 < h then none else
  let cs ← expectChar ':' cs
  let (m, cs) ← readNum2 cs
  if 59 < m then none else
  let cs ← expectChar ' ' cs
  match cs with
  | ['A', 'M'] => some (h, m, false)
  | ['P', 'M'] => some (h, m, true)
  | _ => none

/-- `strptime(value, "%H:%M:%S")`, returning (hour, minute, second):
hour 0..23, minute 0..59, second 0..61 (Python's `%S` admits leap seconds). -/
def parseTime24 (s : String) : Option (Nat × Nat × Nat) := do
  let (h, cs) ← readNum2 s.toList
  if 23 < h then none else
  let cs ← expectChar ':' cs
  let (m, cs) ← readNum2 cs
  if 59 < m then none else
  let cs ← expectChar ':' cs
  let (s2, cs) ← readNum2 cs
  if 61 < s2 ∨ cs ≠ [] then none else
  some (h, m, s2)

/-- Convert a parsed (12-hour hour, isPM) pair to the 24-hour `tm_hour` value,
as `strptime`'s `%I`/`%p` handling does. -/
def hour24 (h12 : Nat) (pm : Bool) : Nat :=
  (if pm then 12 else 0) + h12 % 12

/-! ### `SimpleTimeWidget` (src/events/forms.py lines 77-108) -/

/-- Drop-down choice list built by `SimpleTimeWidget.__init__`: for each
meridian `AM`, `PM`, for each hour 0..11 (0 replaced by 12), for each minute
0 and 30, a `("%02d:%02d %s", "%02d:%02d %s")` pair. -/
def simpleTimeChoices : List (String × String) :=
  (["AM", "PM"].map fun mer =>
    ((List.range 12).map fun h =>
      let hour := if h = 0 then 12 else h
      [0, 30].map fun minute =>
        (pad2 hour ++ ":" ++ pad2 minute ++ " " ++ mer,
         pad2 hour ++ ":" ++ pad2 minute ++ " " ++ mer)).flatten).flatten

/-- `SimpleTimeWidget.value_from_datadict`: parse the submitted value with
`strptime("%I:%M %p")` and re-render it with `strftime("%H:%M:%S")`
(the parsed `tm_sec` is 0). `none` models the uncaught `ValueError`. -/
def SimpleTimeWidget.value_from_datadict (value : String) : Option String :=
  (parseTime12 value).map fun (h, m, pm) => fmtTime24 (hour24 h pm) m 0

/-! ### `TimeWidget` (src/events/forms.py lines 111-170) -/

/-- A Python `datetime.time` value. -/
structure PyTime where
  hour : Nat
  minute : Nat
  second : Nat
  deriving DecidableEq, Repr

/-- A Python value reaching `TimeWidget.decompress`: a string, a
`datetime.time`, or anything else. -/
inductive PyValue where
  | str (s : String)
  | time (t : PyTime)
  | other
  deriving DecidableEq, Repr

/-- `TimeWidget.decompress`.  For a string it tries
`strptime("%I:%M %p")` then `strptime("%H:%M:%S")` and splits `tm_hour`
into an hour and an `AM`/`PM` marker (subtracting 12 in the PM case); for a
`datetime.time` it returns (`int(strftime("%I"))`, `int(strftime("%M"))`,
`strftime("%p")`); anything else gives `(None, None, None)`.  The outer
`none` models the exception escaping when neither parse succeeds. -/
def TimeWidget.decompress (value : PyValue) : Option (Option Nat × Option Nat × Option String) :=
  match value with
  | .str s =>
    let parsed : Option (Nat × Nat) :=
      match parseTime12 s with
      | some (h, m, pm) => some (hour24 h pm, m)
      | none =>
        match parseTime24 s with
        | some (h, m, _) => some (h, m)
        | none => none
    match parsed with
    | none => none
    | some (h, m) =>
      if h < 12 then some (some h, some m, some "AM")
      else some (some (h - 12), some m, some "PM")
  | .time t =>
    some (some (hour12 t.hour), some t.minute, some (meridianOf t.hour))
  | .other => some (none, none, none)

/-- `TimeWidget.value_from_datadict`: the three sub-select values are
interpolated as `"%02d:%02d %s"`, parsed with `strptime("%I:%M %p")` and
re-rendered with `strftime("%H:%M:%S")`. -/
def TimeWidget.value_from_datadict (h m : Nat) (mer : String) : Option String :=
  (parseTime12 (pad2 h ++ ":" ++ pad2 m ++ " " ++ mer)).map
    fun (h2, m2, pm) => fmtTime24 (hour24 h2 pm) m2 0

/-- The round trip of claim C10: feed the triple produced by
`TimeWidget.decompress` on a `datetime.time` back through
`TimeWidget.value_from_datadict`. -/
def timeWidgetRoundTrip (t : PyTime) : Option String :=
  match TimeWidget.decompress (.time t) with
  | some (some h, some m, some mer) => TimeWidget.value_from_datadict h m mer
  | _ => none

/-! ### `DateTimeWidget` (src/events/forms.py lines 173-195) -/

/-- A Python `datetime.datetime` value (naive; microseconds play no role in
any of the formats used). -/
structure PyDateTime where
  year : Nat
  month : Nat
  day : Nat
  hour : Nat
  minute : Nat
  second : Nat
  deriving DecidableEq, Repr

/-- `strftime("%Y-%m-%d", value.timetuple())`. -/
def fmtDate (dt : PyDateTime) : String :=
  pad4 dt.year ++ "-" ++ pad2 dt.month ++ "-" ++ pad2 dt.day

/-- `DateTimeWidget.decompress`: a truthy (non-`None`) datetime becomes its
`("%Y-%m-%d", "%I:%M %p")` pair of strings; `None` becomes `(None, None)`. -/
def DateTimeWidget.decompress (value : Option PyDateTime) : Option String × Option String :=
  match value with
  | some dt => (some (fmtDate dt), some (fmtTime12 dt.hour dt.minute))
  | none => (none, none)

/-- `DateTimeWidget.value_from_datadict`: the inherited
`MultiWidget.value_from_datadict` collects each sub-widget's value — the
`DateWidget` returns the raw submitted date string, the `SimpleTimeWidget`
converts its part via `SimpleTimeWidget.value_from_datadict` — and the
override joins the two with `" ".join(values)`. -/
def DateTimeWidget.value_from_datadict (dateStr timeStr : String) : Option String :=
  (SimpleTimeWidget.value_from_datadict timeStr).map fun t => dateStr ++ " " ++ t

/-- The round trip of claim C7: decompose a datetime into its two widget
strings and feed them back through `DateTimeWidget.value_from_datadict`. -/
def dateTimeWidgetRoundTrip (dt : PyDateTime) : Option String :=
  match DateTimeWidget.decompress (some dt) with
  | (some d, some t) => DateTimeWidget.value_from_datadict d t
  | _ => none

/-! ### `Lookup.format_value` (src/events/forms.py lines 45-56) -/

/-- The attribute named by a `Lookup` widget's `label` on a looked-up model
object: either a plain value or a callable (as `__str__` is). -/
inductive LabelAttr where
  | plain (s : String)
  | callable (f : Unit → String)

/-- `getattr(lookup_object, self.label)` followed by the
`callable(lookup_field)` branch: call it if callable, use it directly
otherwise. -/
def resolveLabel : LabelAttr → String
  | .plain s => s
  | .callable f => f ()

/-- `Lookup.format_value`.  The widget's queryset lookup
`self.source.objects.get(**{self.key: value})` is modelled by a partial map
from key values to the label attribute of the matching object (`none` models
the `DoesNotExist` exception, which escapes).  A `None` value yields the
placeholder option without consulting the source at all. -/
def Lookup.format_value (source : String → Option LabelAttr)
    (value : Option String) : Option String :=
  match value with
  | some v =>
    match source v with
    | some attr =>
      some ("<option value=\"" ++ v ++ "\">" ++ resolveLabel attr ++ "</option>")
    | none => none
  | none => some "<option value=\"\">--------</option>"

/-! ### `MultiEmailField` (src/events/forms.py lines 249-262) -/

/-- Python `value.split(",")` on the underlying characters: cut at every
comma; `n` commas give `n + 1` (possibly empty) pieces. -/
def commaSplitChars : List Char → List (List Char)
  | [] => [[]]
  | c :: rest =>
    if c = ',' then [] :: commaSplitChars rest
    else
      match commaSplitChars rest with
      | h :: t => (c :: h) :: t
      | [] => [[c]]

/-- Python `email.strip()`: remove leading and trailing whitespace. -/
def stripChars (cs : List Char) : List Char :=
  ((cs.dropWhile Char.isWhitespace).reverse.dropWhile Char.isWhitespace).reverse

/-- Re-join comma-split pieces with commas (the left inverse showing
`commaSplitChars` really is the comma decomposition of its input). -/
def joinCommaChars : List (List Char) → List Char
  | [] => []
  | [x] => x
  | x :: xs => x ++ ',' :: joinCommaChars xs

/-- `MultiEmailField.to_python`: a missing or empty (falsy) value gives `[]`;
otherwise split on `","` and strip each piece. -/
def MultiEmailField.to_python (value : Option String) : List String :=
  match value with
  | none => []
  | some s =>
    if s = "" then []
    else (commaSplitChars s.toList).map fun cs => String.mk (stripChars cs)

/-- The loop in `MultiEmailField.validate`: `validate_email(email)` for each
element in order, raising (here: `Except.error` with the offending element)
at the first failure.  The framework's `validate_email` is abstracted as the
predicate `isEmail`. -/
def validateEmails (isEmail : String → Bool) : List String → Except String Unit
  | [] => .ok ()
  | e :: rest => if isEmail e then validateEmails isEmail rest else .error e

/-- `MultiEmailField.validate`: first `super().validate(value)` — Django's
`Field.validate`, which raises `required` when the field is required and the
value is one of the empty values (the empty list is one) — then the
per-element email loop. -/
def MultiEmailField.validate (required : Bool) (isEmail : String → Bool)
    (value : List String) : Except String Unit :=
  if required ∧ value = [] then .error "This field is required."
  else validateEmails isEmail value

/-! ### Confirmation forms (src/events/forms.py)

Each `forms.Form` subclass is modelled as its list of declared fields; a
field keeps its name, label, kind and `required` flag exactly as declared. -/

/-- The kinds of form field the confirmation forms declare. -/
inductive FieldKind where
  | boolean
  | char
  deriving DecidableEq, Repr

/-- One declared form field. -/
structure FormField where
  name : String
  label : String
  kind : FieldKind
  required : Bool
  deriving DecidableEq, Repr

/-- Raw submitted form data: a map from field names to the submitted string,
`none` when the browser sent nothing under that name (as an unchecked
checkbox does). -/
def FormData : Type := String → Option String

/-- Django's per-field validation outcome on raw data.  A `BooleanField`'s
checkbox value is `False` when absent and `bool(value)` (with the strings
`"false"`/`"0"` mapping to `False`) otherwise, and a required boolean must be
`True`.  A `CharField` strips its value and a required char field must be
non-empty after stripping. -/
def fieldIsValid (f : FormField) (data : FormData) : Bool :=
  match f.kind with
  | .boolean =>
    let v : Bool :=
      match data f.name with
      | none => false
      | some s => !(s == "false" || s == "0" || s == "")
    !f.required || v
  | .char =>
    let v := ((data f.name).getD "").trim
    !f.required || !(v == "")

/-- A form is valid when every declared field validates. -/
def formIsValid (fields : List FormField) (data : FormData) : Bool :=
  fields.all (fieldIsValid · data)

/-- `DeleteTeamForm` (line 240). -/
def DeleteTeamForm : List FormField :=
  [⟨"confirm", "Yes, delete team", .boolean, true⟩]

/-- `DeleteEventForm` (line 408). -/
def DeleteEventForm : List FormField :=
  [⟨"confirm", "Yes, delete event", .boolean, true⟩]

/-- `CancelEventForm` (lines 412-416). -/
def CancelEventForm : List FormField :=
  [⟨"confirm", "Yes, cancel this event", .boolean, true⟩,
   ⟨"reason", "Reason for cancellation", .char, true⟩]

/-- `DeleteEventSeriesForm` (line 452). -/
def DeleteEventSeriesForm : List FormField :=
  [⟨"confirm", "Yes, delete series", .boolean, true⟩]

/-- `RemoveEventPhotoForm` (line 462). -/
def RemoveEventPhotoForm : List FormField :=
  [⟨"confirm", "Yes, remove photo", .boolean, true⟩]

/-- `DeleteCommentForm` (line 472). -/
def DeleteCommentForm : List FormField :=
  [⟨"confirm", "Yes, delete comment", .boolean, true⟩]

/-- `AcceptRequestToJoinOrgForm` (line 574). -/
def AcceptRequestToJoinOrgForm : List FormField :=
  [⟨"confirm", "Yes, add this team to my organization", .boolean, true⟩]

/-- `AcceptInviteToJoinOrgForm` (line 586). -/
def AcceptInviteToJoinOrgForm : List FormField :=
  [⟨"confirm", "Yes, add my team to this organization", .boolean, true⟩]

/-- `AcceptInviteToJoinTeamForm` (line 592). -/
def AcceptInviteToJoinTeamForm : List FormField :=
  [⟨"confirm", "Yes, add me to this team", .boolean, true⟩]

/-- `AcceptRequestToJoinTeamForm` (line 596). -/
def AcceptRequestToJoinTeamForm : List FormField :=
  [⟨"confirm", "Yes, add this person to my team", .boolean, true⟩]

/-- `DeleteSpeakerForm` (line 634). -/
def DeleteSpeakerForm : List FormField :=
  [⟨"confirm", "Yes, delete series", .boolean, true⟩]

/-- `DeleteTalkForm` (line 644). -/
def DeleteTalkForm : List FormField :=
  [⟨"confirm", "Yes, delete series", .boolean, true⟩]

/-- Submission of a confirmation form: the checkbox sends `"on"` when checked
and nothing when not, and the cancellation reason textarea sends its text. -/
def confirmSubmission (checked : Bool) (reason : String) : FormData :=
  fun k =>
    if k = "confirm" then (if checked then some "on" else none)
    else if k = "reason" then some reason
    else none

/-! ### Timezone-aware cleaning of event start/end times
(src/events/forms.py lines 302-315, 334-347, 364-377)

Datetimes are measured in minutes.  An aware datetime is identified by the
instant it denotes (its UTC wall clock); a naive datetime is just a wall
clock.  A `pytz` timezone is modelled by its two offset maps: the UTC offset
it assigns when localizing a naive wall clock (`tz.localize`) and the UTC
offset in force at a given instant (used when converting an aware datetime
into the zone, as `django.utils.timezone.make_naive` does). -/

/-- An aware datetime: the UTC instant it denotes, in minutes. -/
structure Aware where
  instant : Int
  deriving DecidableEq, Repr

/-- A naive datetime: a wall clock, in minutes. -/
structure Naive where
  wall : Int
  deriving DecidableEq, Repr

/-- A `pytz` timezone, by its offset maps (minutes east of UTC). -/
structure PyTz where
  offsetOfLocal : Int → Int
  offsetAt : Int → Int

/-- `pytz.utc`: both offsets are zero everywhere. -/
def pytz.utc : PyTz := ⟨fun _ => 0, fun _ => 0⟩

/-- `tz.localize(naive)`: attach `tz` to a wall clock; the denoted instant is
the wall clock minus the zone's offset for that local time. -/
def localize (tz : PyTz) (n : Naive) : Aware :=
  ⟨n.wall - tz.offsetOfLocal n.wall⟩

/-- `django.utils.timezone.make_naive(value, tz)`: convert an aware datetime
into `tz` and drop the tzinfo, leaving that zone's wall clock. -/
def make_naive (tz : PyTz) (a : Aware) : Naive :=
  ⟨a.instant + tz.offsetAt a.instant⟩

/-- Modelled from the spec: Django's current timezone, used by
`timezone.make_naive` when called with no explicit zone.  It comes from
`settings.TIME_ZONE`, and the settings module is not among the provided
sources; the spec states the cleaning "convert[s] to UTC", which pins the
current timezone to UTC. -/
def currentTimezone : PyTz := pytz.utc

/-- The transformation each event form's `clean` applies to one datetime:
`pytz.utc.localize(timezone.make_naive(event_tz.localize(timezone.make_naive(x))))`. -/
def cleanDatetime (event_tz : PyTz) (x : Aware) : Aware :=
  localize pytz.utc (make_naive currentTimezone (localize event_tz (make_naive currentTimezone x)))

/-- A value stored in `cleaned_data`: a datetime or any other cleaned value. -/
inductive CleanedVal where
  | dt (a : Aware)
  | raw (s : String)
  deriving DecidableEq, Repr

/-- `cleaned_data`: a map from field names to cleaned values. -/
def CleanedData : Type := String → Option CleanedVal

/-- `cleaned_data[key] = v`. -/
def setKey (d : CleanedData) (k : String) (v : CleanedVal) : CleanedData :=
  fun k2 => if k2 = k then some v else d k2

/-- The form instance state that `clean` consults: `pytz.timezone(self.instance.tz)`. -/
structure EventInstance where
  tz : PyTz

/-- Shared body of `TeamEventForm.clean`, `NewTeamEventForm.clean` and
`NewEventForm.clean`: take the superclass's `cleaned_data`, overwrite
`start_time` and `end_time` with their `cleanDatetime` images, return the
dict.  `none` models the `KeyError`/`TypeError` raised when a key is missing
or not a datetime (impossible on a valid submission). -/
def eventFormCleanBody (inst : EventInstance) (cleaned_data : CleanedData) :
    Option CleanedData :=
  match cleaned_data "start_time", cleaned_data "end_time" with
  | some (.dt s), some (.dt e) =>
    some (setKey (setKey cleaned_data "start_time" (.dt (cleanDatetime inst.tz s)))
      "end_time" (.dt (cleanDatetime inst.tz e)))
  | _, _ => none

/-- `TeamEventForm.clean` (lines 302-315). -/
def TeamEventForm.clean (inst : EventInstance) (cleaned_data : CleanedData) :
    Option CleanedData :=
  eventFormCleanBody inst cleaned_data

/-- `NewTeamEventForm.clean` (lines 334-347). -/
def NewTeamEventForm.clean (inst : EventInstance) (cleaned_data : CleanedData) :
    Option CleanedData :=
  eventFormCleanBody inst cleaned_data

/-- `NewEventForm.clean` (lines 364-377). -/
def NewEventForm.clean (inst : EventInstance) (cleaned_data : CleanedData) :
    Option CleanedData :=
  eventFormCleanBody inst cleaned_data

/-! ### URL configuration (src/get_together/urls.py lines 21-41) -/

/-- One entry of `urlpatterns`: either a `path(route, view, name=...)` call
(the view recorded by its dotted expression in the source; `name` is `none`
when the call passes no name) or a `path(route, include(module, namespace))`
inclusion. -/
inductive URLEntry where
  | route (pattern view : String) (name : Option String)
  | includeNs (pattern module ns : String)
  deriving DecidableEq, Repr

/-- The `urlpatterns` list, entry for entry. -/
def urlpatterns : List URLEntry :=
  [.route "" "views.home" (some "home"),
   .route "admin/" "admin.site.urls" none,
   .route "searchables/" "event_views.searchable_list" none,
   .route "api/places/" "event_views.places_list" none,
   .route "api/countries/" "event_views.country_list" none,
   .route "api/spr/" "event_views.spr_list" none,
   .route "api/cities/" "event_views.city_list" none,
   .route "events/" "views.events_list" (some "events"),
   .route "create-team/" "views.create_team" (some "create-team"),
   .route "teams/" "views.teams_list" (some "teams"),
   .route "team/<int:team_id>/" "views.show_team" (some "show-team"),
   .route "team/<int:team_id>/create-event/" "views.create_event" (some "create-event"),
   .route "events/<int:event_id>/<str:event_slug>/" "views.show_event" (some "show-event"),
   .route "places/" "views.places_list" (some "places"),
   .route "create-place/" "views.create_place" (some "create-place"),
   .includeNs "oauth/" "social_django.urls" "social"]

/-- Reverse a route name to its (pattern, view) pair, as Django's URL
reversing resolves names against `urlpatterns`. -/
def lookupRoute (n : String) : Option (String × String) :=
  urlpatterns.findSome? fun e =>
    match e with
    | .route p v (some n2) => if n2 = n then some (p, v) else none
    | _ => none

/-! ### Team display views (src/get_together/tests/teams.py lines 24-54)

The view functions under test live in `get_together/views`, which is not
among the provided sources; only the test file is.  Their response behaviour
is therefore modelled from the spec and the expectations the tests assert. -/

/-- A saved `Team` as the test exercises it. -/
structure Team where
  slug : String
  about_page : String
  deriving DecidableEq, Repr

/-- Modelled from the spec: the status code of `GET` on a team's absolute
URL (`show_team`, missing from the sources); the spec's integration test has
it render the team page, status 200, for every saved team. -/
def showTeamStatus (_t : Team) : Nat := 200

/-- Modelled from the spec: the status code of `GET` on the
`show-team-about-by-slug` route (view missing from the sources); the spec's
integration test has it render the about page, status 200, when
`about_page` is non-empty, and redirect, status 302, when it is empty. -/
def showTeamAboutStatus (t : Team) : Nat :=
  if t.about_page = "" then 302 else 200

/-! ## Helper lemmas -/

/-- With the current timezone being UTC, the four-step dance in `clean`
collapses: an aware datetime obtained by localizing the wall clock `w` in the
current timezone comes out as `w` localized in the event's timezone (whose
instant is exactly the UTC equivalent the final `pytz.utc.localize` attaches). -/
theorem cleanDatetime_of_current (tz : PyTz) (w : Int) :
    cleanDatetime tz (localize currentTimezone ⟨w⟩) = localize tz ⟨w⟩ := by
  simp [cleanDatetime, localize, make_naive, currentTimezone, pytz.utc]

/-- Writing one key leaves every other key unchanged. -/
theorem setKey_ne (d : CleanedData) (k k2 : String) (v : CleanedVal) (h : k ≠ k2) :
    setKey d k2 v k = d k := by
  simp [setKey, h]

/-- Evaluation of the shared `clean` body when both datetimes are present. -/
theorem eventFormCleanBody_eq (inst : EventInstance) (d : CleanedData) (s e : Aware)
    (hs : d "start_time" = some (.dt s)) (he : d "end_time" = some (.dt e)) :
    eventFormCleanBody inst d =
      some (setKey (setKey d "start_time" (.dt (cleanDatetime inst.tz s)))
        "end_time" (.dt (cleanDatetime inst.tz e))) := by
  unfold eventFormCleanBody
  rw [hs, he]

/-- A sample fixed-offset event timezone (UTC+02:00, in minutes). -/
def sampleTz : PyTz := ⟨fun _ => 120, fun _ => 120⟩

/-- A sample `cleaned_data` produced by the superclass `clean`. -/
def sampleCleaned : CleanedData := fun k =>
  if k = "start_time" then some (.dt ⟨600⟩)
  else if k = "end_time" then some (.dt ⟨660⟩)
  else if k = "name" then some (.raw "Sprint")
  else none

/-- The dict the event forms' `clean` returns on `sampleCleaned`. -/
def sampleCleanedResult : CleanedData :=
  setKey (setKey sampleCleaned "start_time" (.dt (cleanDatetime sampleTz ⟨600⟩)))
    "end_time" (.dt (cleanDatetime sampleTz ⟨660⟩))

/-! ## Claims -/

/-- Claim C1: for each of `TeamEventForm`, `NewTeamEventForm` and
`NewEventForm`, on a valid submission — `cleaned_data` holds the aware
datetimes the superclass `clean` produced from the submitted wall-clock
start and end times — `clean()` returns `cleaned_data` in which `start_time`
and `end_time` are those wall-clock times localized in the event instance's
stored timezone and thereby carried to the equivalent UTC-aware datetimes. -/
theorem eventForms_clean_localize_then_utc
    (inst : EventInstance) (d : CleanedData) (ws we : Int)
    (hs : d "start_time" = some (.dt (localize currentTimezone ⟨ws⟩)))
    (he : d "end_time" = some (.dt (localize currentTimezone ⟨we⟩))) :
    ((TeamEventForm.clean inst d).bind (fun d2 => d2 "start_time")
        = some (.dt (localize inst.tz ⟨ws⟩)) ∧
      (TeamEventForm.clean inst d).bind (fun d2 => d2 "end_time")
        = some (.dt (localize inst.tz ⟨we⟩))) ∧
    ((NewTeamEventForm.clean inst d).bind (fun d2 => d2 "start_time")
        = some (.dt (localize inst.tz ⟨ws⟩)) ∧
      (NewTeamEventForm.clean inst d).bind (fun d2 => d2 "end_time")
        = some (.dt (localize inst.tz ⟨we⟩))) ∧
    ((NewEventForm.clean inst d).bind (fun d2 => d2 "start_time")
        = some (.dt (localize inst.tz ⟨ws⟩)) ∧
      (NewEventForm.clean inst d).bind (fun d2 => d2 "end_time")
        = some (.dt (localize inst.tz ⟨we⟩))) := by
  have hb := eventFormCleanBody_eq inst d _ _ hs he
  have hstart : (eventFormCleanBody inst d).bind (fun d2 => d2 "start_time")
      = some (.dt (localize inst.tz ⟨ws⟩)) := by
    rw [hb]
    simp [setKey, cleanDatetime_of_current]
  have hend : (eventFormCleanBody inst d).bind (fun d2 => d2 "end_time")
      = some (.dt (localize inst.tz ⟨we⟩)) := by
    rw [hb]
    simp [setKey, cleanDatetime_of_current]
  exact ⟨⟨hstart, hend⟩, ⟨hstart, hend⟩, hstart, hend⟩

/-- Witness for C1 at a concrete instance: event timezone UTC+02:00, wall
clocks 600 and 660 minutes; both times come out localized (instants 480 and
540, i.e. two hours earlier in UTC). -/
theorem eventForms_clean_localize_then_utc_witness :
    (TeamEventForm.clean ⟨sampleTz⟩ sampleCleaned).bind (fun d2 => d2 "start_time")
        = some (.dt ⟨480⟩) ∧
    (TeamEventForm.clean ⟨sampleTz⟩ sampleCleaned).bind (fun d2 => d2 "end_time")
        = some (.dt ⟨540⟩) ∧
    (NewTeamEventForm.clean ⟨sampleTz⟩ sampleCleaned).bind (fun d2 => d2 "start_time")
        = some (.dt ⟨480⟩) ∧
    (NewEventForm.clean ⟨sampleTz⟩ sampleCleaned).bind (fun d2 => d2 "start_time")
        = some (.dt ⟨480⟩) := by
  have h := eventForms_clean_localize_then_utc ⟨sampleTz⟩ sampleCleaned 600 660
    (by decide) (by decide)
  exact ⟨h.1.1, h.1.2, h.2.1.1, h.2.2.1⟩

/-- Claim C2: on a valid submission, each event form's `clean` changes only
the `start_time` and `end_time` entries of `cleaned_data`; every other key
keeps the value the superclass `clean` gave it. -/
theorem eventForms_clean_frame
    (inst : EventInstance) (d d2 : CleanedData) (k : String)
    (h1 : k ≠ "start_time") (h2 : k ≠ "end_time") :
    (TeamEventForm.clean inst d = some d2 → d2 k = d k) ∧
    (NewTeamEventForm.clean inst d = some d2 → d2 k = d k) ∧
    (NewEventForm.clean inst d = some d2 → d2 k = d k) := by
  have key : eventFormCleanBody inst d = some d2 → d2 k = d k := by
    intro h
    unfold eventFormCleanBody at h
    rcases hds : d "start_time" with _ | (a | s1) <;> rw [hds] at h <;>
      rcases hde : d "end_time" with _ | (b | s2) <;> rw [hde] at h <;>
        simp only [Option.some.injEq, reduceCtorEq] at h
    subst h
    rw [setKey_ne _ _ _ _ h2, setKey_ne _ _ _ _ h1]
  exact ⟨key, key, key⟩

/-- Witness for C2: on the sample data, the `name` entry survives `clean`
unchanged in all three forms. -/
theorem eventForms_clean_frame_witness :
    sampleCleanedResult "name" = sampleCleaned "name" ∧
    sampleCleanedResult "name" = some (.raw "Sprint") := by
  have h := eventForms_clean_frame ⟨sampleTz⟩ sampleCleaned sampleCleanedResult "name"
    (by decide) (by decide)
  exact ⟨h.1 rfl, by decide⟩

/-- Claim C3: every confirmation form declares exactly one field named
`confirm`, a required boolean, and validates exactly when the checkbox is
checked — except `CancelEventForm`, which additionally requires a
cancellation reason that is non-empty (after the `CharField`'s whitespace
stripping). -/
theorem confirmationForms_validate_iff_confirmed (c : Bool) (reason : String) :
    ((DeleteTeamForm.filter (fun f => f.name == "confirm")).map
        (fun f => (f.kind, f.required)) = [(.boolean, true)] ∧
      formIsValid DeleteTeamForm (confirmSubmission c reason) = c) ∧
    ((DeleteEventForm.filter (fun f => f.name == "confirm")).map
        (fun f => (f.kind, f.required)) = [(.boolean, true)] ∧
      formIsValid DeleteEventForm (confirmSubmission c reason) = c) ∧
    ((CancelEventForm.filter (fun f => f.name == "confirm")).map
        (fun f => (f.kind, f.required)) = [(.boolean, true)] ∧
      formIsValid CancelEventForm (confirmSubmission c reason)
        = (c && !(reason.trim == ""))) ∧
    ((DeleteEventSeriesForm.filter (fun f => f.name == "confirm")).map
        (fun f => (f.kind, f.required)) = [(.boolean, true)] ∧
      formIsValid DeleteEventSeriesForm (confirmSubmission c reason) = c) ∧
    ((RemoveEventPhotoForm.filter (fun f => f.name == "confirm")).map
        (fun f => (f.kind, f.required)) = [(.boolean, true)] ∧
      formIsValid RemoveEventPhotoForm (confirmSubmission c reason) = c) ∧
    ((DeleteCommentForm.filter (fun f => f.name == "confirm")).map
        (fun f => (f.kind, f.required)) = [(.boolean, true)] ∧
      formIsValid DeleteCommentForm (confirmSubmission c reason) = c) ∧
    ((AcceptRequestToJoinOrgForm.filter (fun f => f.name == "confirm")).map
        (fun f => (f.kind, f.required)) = [(.boolean, true)] ∧
      formIsValid AcceptRequestToJoinOrgForm (confirmSubmission c reason) = c) ∧
    ((AcceptInviteToJoinOrgForm.filter (fun f => f.name == "confirm")).map
        (fun f => (f.kind, f.required)) = [(.boolean, true)] ∧
      formIsValid AcceptInviteToJoinOrgForm (confirmSubmission c reason) = c) ∧
    ((AcceptInviteToJoinTeamForm.filter (fun f => f.name == "confirm")).map
        (fun f => (f.kind, f.required)) = [(.boolean, true)] ∧
      formIsValid AcceptInviteToJoinTeamForm (confirmSubmission c reason) = c) ∧
    ((AcceptRequestToJoinTeamForm.filter (fun f => f.name == "confirm")).map
        (fun f => (f.kind, f.required)) = [(.boolean, true)] ∧
      formIsValid AcceptRequestToJoinTeamForm (confirmSubmission c reason) = c) ∧
    ((DeleteSpeakerForm.filter (fun f => f.name == "confirm")).map
        (fun f => (f.kind, f.required)) = [(.boolean, true)] ∧
      formIsValid DeleteSpeakerForm (confirmSubmission c reason) = c) ∧
    ((DeleteTalkForm.filter (fun f => f.name == "confirm")).map
        (fun f => (f.kind, f.required)) = [(.boolean, true)] ∧
      formIsValid DeleteTalkForm (confirmSubmission c reason) = c) := by
  refine ⟨⟨by decide, ?_⟩, ⟨by decide, ?_⟩, ⟨by decide, ?_⟩, ⟨by decide, ?_⟩,
    ⟨by decide, ?_⟩, ⟨by decide, ?_⟩, ⟨by decide, ?_⟩, ⟨by decide, ?_⟩,
    ⟨by decide, ?_⟩, ⟨by decide, ?_⟩, ⟨by decide, ?_⟩, ⟨by decide, ?_⟩⟩ <;>
  cases c <;>
  simp [formIsValid, fieldIsValid, confirmSubmission, DeleteTeamForm, DeleteEventForm,
    CancelEventForm, DeleteEventSeriesForm, RemoveEventPhotoForm, DeleteCommentForm,
    AcceptRequestToJoinOrgForm, AcceptInviteToJoinOrgForm, AcceptInviteToJoinTeamForm,
    AcceptRequestToJoinTeamForm, DeleteSpeakerForm, DeleteTalkForm]

/-! ### Helper lemmas for the `MultiEmailField` claims -/

/-- The comma split is never empty. -/
theorem commaSplit_ne_nil (cs : List Char) : commaSplitChars cs ≠ [] := by
  cases cs with
  | nil => simp [commaSplitChars]
  | cons c rest =>
    by_cases hc : c = ','
    · simp [commaSplitChars, hc]
    · simp only [commaSplitChars, if_neg hc]
      cases commaSplitChars rest <;> simp

/-- Joining the comma-split pieces with commas recovers the input: the split
really is the comma decomposition of the string. -/
theorem joinComma_commaSplit (cs : List Char) : joinCommaChars (commaSplitChars cs) = cs := by
  induction cs with
  | nil => rfl
  | cons c rest ih =>
    by_cases hc : c = ','
    · subst hc
      simp only [commaSplitChars, if_pos rfl]
      cases hsplit : commaSplitChars rest with
      | nil => exact absurd hsplit (commaSplit_ne_nil rest)
      | cons h t =>
        rw [hsplit] at ih
        show ',' :: joinCommaChars (h :: t) = ',' :: rest
        rw [ih]
    · simp only [commaSplitChars, if_neg hc]
      cases hsplit : commaSplitChars rest with
      | nil => exact absurd hsplit (commaSplit_ne_nil rest)
      | cons h t =>
        rw [hsplit] at ih
        cases t with
        | nil =>
          show c :: h = c :: rest
          simpa [joinCommaChars] using ih
        | cons h2 t2 =>
          show (c :: h) ++ ',' :: joinCommaChars (h2 :: t2) = c :: rest
          rw [← ih]
          rfl

/-- The email loop reports the first failing element and succeeds otherwise. -/
theorem validateEmails_eq_find (p : String → Bool) (l : List String) :
    validateEmails p l =
      (match l.find? (fun e => !p e) with
       | some e => .error e
       | none => .ok ()) := by
  induction l with
  | nil => rfl
  | cons e rest ih =>
    by_cases hp : p e <;> simp [validateEmails, List.find?_cons, hp, ih]

/-- Claim C4, counterexample: on the empty input the cleaned value is `[]`,
every element of which vacuously passes email validation, yet `validate`
raises the required-field error inherited from `Field.validate` instead of
succeeding — so "validate succeeds if and only if every element passes
email validation" fails as stated. -/
theorem multiEmailField_claim_counterexample :
    MultiEmailField.to_python (some "") = [] ∧
    (MultiEmailField.to_python (some "")).all (fun _ => true) = true ∧
    MultiEmailField.validate true (fun _ => true) (MultiEmailField.to_python (some ""))
      ≠ .ok () := by
  refine ⟨rfl, rfl, ?_⟩
  decide

/-- Claim C4 (amended): `to_python` maps empty or missing input to `[]` and a
non-empty input to its comma-separated substrings with surrounding whitespace
stripped; `validate` then succeeds if and only if the parent required check
passes (the list being non-empty whenever the field is required) and every
element passes email validation, raising a validation error carrying the
first element that does not. -/
theorem multiEmailField_validate_amended (required : Bool) (isEmail : String → Bool)
    (value : Option String) :
    MultiEmailField.to_python none = [] ∧
    MultiEmailField.to_python (some "") = [] ∧
    (∀ s : String, ¬s = "" →
      MultiEmailField.to_python (some s)
        = (commaSplitChars s.toList).map (fun cs => String.mk (stripChars cs)) ∧
      joinCommaChars (commaSplitChars s.toList) = s.toList) ∧
    (MultiEmailField.validate required isEmail (MultiEmailField.to_python value) = .ok ()
      ↔ ((required = true → MultiEmailField.to_python value ≠ []) ∧
          ∀ e ∈ MultiEmailField.to_python value, isEmail e = true)) ∧
    (∀ e, (MultiEmailField.to_python value).find? (fun x => !isEmail x) = some e →
      MultiEmailField.validate required isEmail (MultiEmailField.to_python value)
        = .error e) := by
  refine ⟨rfl, rfl, fun s hs => ⟨by simp [MultiEmailField.to_python, hs],
    joinComma_commaSplit s.toList⟩, ?_, ?_⟩
  · unfold MultiEmailField.validate
    rw [validateEmails_eq_find]
    by_cases hreq : required = true ∧ MultiEmailField.to_python value = []
    · simp only [if_pos hreq]
      constructor
      · intro h
        exact absurd h (by simp)
      · rintro ⟨h1, _⟩
        exact absurd (h1 hreq.1) (not_not_intro hreq.2)
    · simp only [if_neg hreq]
      cases hf : (MultiEmailField.to_python value).find? (fun x => !isEmail x) with
      | some e =>
        have he := List.find?_some hf
        have hmem := List.mem_of_find?_eq_some hf
        constructor
        · intro h
          exact absurd h (by simp)
        · rintro ⟨_, h2⟩
          have := h2 e hmem
          simp [this] at he
      | none =>
        rw [List.find?_eq_none] at hf
        constructor
        · intro _
          refine ⟨fun hr hnil => hreq ⟨hr, hnil⟩, fun e he => ?_⟩
          have := hf e he
          simpa using this
        · intro _
          rfl
  · intro e he
    have hmem := List.mem_of_find?_eq_some he
    have hne : MultiEmailField.to_python value ≠ [] := by
      intro hnil
      rw [hnil] at hmem
      exact absurd hmem (List.not_mem_nil e)
    unfold MultiEmailField.validate
    rw [validateEmails_eq_find, he, if_neg (fun h => hne h.2)]

/-- Witness for C4 (amended) at the input `"a, b"` with the email predicate
accepting only `"a"`: cleaning splits and strips to `["a", "b"]`, and
validation fails carrying the first bad element `"b"`. -/
theorem multiEmailField_validate_amended_witness :
    MultiEmailField.to_python (some "a, b")
        = (commaSplitChars "a, b".toList).map (fun cs => String.mk (stripChars cs)) ∧
    joinCommaChars (commaSplitChars "a, b".toList) = "a, b".toList ∧
    MultiEmailField.validate true (fun s => s == "a") (MultiEmailField.to_python (some "a, b"))
      = .error "b" := by
  have h := multiEmailField_validate_amended true (fun s => s == "a") (some "a, b")
  exact ⟨(h.2.2.1 "a, b" (by decide)).1, (h.2.2.1 "a, b" (by decide)).2,
    h.2.2.2.2 "b" (by decide)⟩

/-- Claim C5: every named route of `urlpatterns` resolves to its registered
(pattern, view) pair — in particular `show-team` to
`team/<int:team_id>/` → `views.show_team` and `show-event` to
`events/<int:event_id>/<str:event_slug>/` → `views.show_event` — and the
`oauth/` prefix includes `social_django.urls` under the `social` namespace. -/
theorem urlpatterns_register_routes :
    lookupRoute "home" = some ("", "views.home") ∧
    lookupRoute "events" = some ("events/", "views.events_list") ∧
    lookupRoute "create-team" = some ("create-team/", "views.create_team") ∧
    lookupRoute "teams" = some ("teams/", "views.teams_list") ∧
    lookupRoute "show-team" = some ("team/<int:team_id>/", "views.show_team") ∧
    lookupRoute "create-event"
      = some ("team/<int:team_id>/create-event/", "views.create_event") ∧
    lookupRoute "show-event"
      = some ("events/<int:event_id>/<str:event_slug>/", "views.show_event") ∧
    lookupRoute "places" = some ("places/", "views.places_list") ∧
    lookupRoute "create-place" = some ("create-place/", "views.create_place") ∧
    URLEntry.includeNs "oauth/" "social_django.urls" "social" ∈ urlpatterns := by
  decide

/-- Claim C6: a `GET` of a saved team's absolute URL answers 200, and a `GET`
of its `show-team-about-by-slug` URL answers 200 when `about_page` is
non-empty and 302 (redirect) when it is empty. -/
theorem teamDisplay_status_codes (t : Team) :
    showTeamStatus t = 200 ∧
    (t.about_page ≠ "" → showTeamAboutStatus t = 200) ∧
    (t.about_page = "" → showTeamAboutStatus t = 302) := by
  refine ⟨rfl, ?_, ?_⟩ <;> intro h <;> simp [showTeamAboutStatus, h]

/-- Witness for C6 on the test's two teams: one with an about page, one
without. -/
theorem teamDisplay_status_codes_witness :
    showTeamStatus ⟨"team-a", "about this team!"⟩ = 200 ∧
    showTeamAboutStatus ⟨"team-a", "about this team!"⟩ = 200 ∧
    showTeamAboutStatus ⟨"team-b", ""⟩ = 302 := by
  have h1 := teamDisplay_status_codes ⟨"team-a", "about this team!"⟩
  have h2 := teamDisplay_status_codes ⟨"team-b", ""⟩
  exact ⟨h1.1, h1.2.1 (by decide), h2.2.2 rfl⟩

/-! ### Helper lemma for the widget round trips -/

set_option maxRecDepth 4000 in
/-- For every hour and minute, the `SimpleTimeWidget` converts the
`"%I:%M %p"` rendering to the `"%H:%M:%S"` one (finite check over all 1440
(hour, minute) pairs). -/
theorem simpleTime_vfd_fmt12 : ∀ h < 24, ∀ m < 60,
    SimpleTimeWidget.value_from_datadict (fmtTime12 h m) = some (fmtTime24 h m 0) := by
  decide

/-- Claim C7, counterexample: at `datetime(2020, 1, 2, 15, 30)` the widget
decomposes into `("2020-01-02", "03:30 PM")`, but the round trip produces
`"2020-01-02 15:30:00"` — the `SimpleTimeWidget` sub-widget converts the
submitted time part to 24-hour `"%H:%M:%S"` before the join, so the composite
is not the claimed `'YYYY-MM-DD HH:MM AM/PM'` join of the decomposed parts. -/
theorem dateTimeWidget_claim_counterexample :
    DateTimeWidget.decompress (some ⟨2020, 1, 2, 15, 30, 0⟩)
      = (some "2020-01-02", some "03:30 PM") ∧
    dateTimeWidgetRoundTrip ⟨2020, 1, 2, 15, 30, 0⟩ = some "2020-01-02 15:30:00" ∧
    dateTimeWidgetRoundTrip ⟨2020, 1, 2, 15, 30, 0⟩
      ≠ some ("2020-01-02" ++ " " ++ "03:30 PM") := by
  decide

/-- Claim C7 (amended): for every non-empty datetime, `decompress` returns
the pair of its `'%Y-%m-%d'` date and `'%I:%M %p'` time, and for every empty
value it returns `(None, None)`; `value_from_datadict` joins the submitted
date part and the time part — the latter first converted by the
`SimpleTimeWidget` sub-widget to 24-hour `'%H:%M:%S'` — with a single space,
so composing it over the decomposed parts reproduces the datetime, to minute
precision, as the string `'YYYY-MM-DD HH:MM:SS'`. -/
theorem dateTimeWidget_roundtrip_amended (dt : PyDateTime)
    (hh : dt.hour < 24) (hm : dt.minute < 60) :
    DateTimeWidget.decompress none = (none, none) ∧
    DateTimeWidget.decompress (some dt)
      = (some (fmtDate dt), some (fmtTime12 dt.hour dt.minute)) ∧
    dateTimeWidgetRoundTrip dt
      = some (fmtDate dt ++ " " ++ fmtTime24 dt.hour dt.minute 0) := by
  refine ⟨rfl, rfl, ?_⟩
  have hstep : dateTimeWidgetRoundTrip dt
      = (SimpleTimeWidget.value_from_datadict (fmtTime12 dt.hour dt.minute)).map
          (fun t => fmtDate dt ++ " " ++ t) := rfl
  rw [hstep, simpleTime_vfd_fmt12 dt.hour hh dt.minute hm]
  rfl

/-- Witness for C7 (amended) at `datetime(2020, 1, 2, 15, 30)`. -/
theorem dateTimeWidget_roundtrip_amended_witness :
    dateTimeWidgetRoundTrip ⟨2020, 1, 2, 15, 30, 0⟩ = some "2020-01-02 15:30:00" := by
  have h := dateTimeWidget_roundtrip_amended ⟨2020, 1, 2, 15, 30, 0⟩ (by decide) (by decide)
  exact h.2.2.trans (by decide)

/-- Claim C8: `Lookup.format_value` on `None` returns the placeholder option
`<option value="">--------</option>` without consulting the source at all
(the result is the same for every source); on a non-`None` value whose
lookup succeeds, it returns an option element carrying that value and the
looked-up object's label attribute — the attribute itself when plain, the
result of calling it when callable. -/
theorem lookup_format_value_spec (source : String → Option LabelAttr) (v : String)
    (attr : LabelAttr) (h : source v = some attr) :
    Lookup.format_value source none = some "<option value=\"\">--------</option>" ∧
    (∀ source2 : String → Option LabelAttr,
      Lookup.format_value source2 none = Lookup.format_value source none) ∧
    Lookup.format_value source (some v)
      = some ("<option value=\"" ++ v ++ "\">" ++ resolveLabel attr ++ "</option>") := by
  refine ⟨rfl, fun _ => rfl, ?_⟩
  simp [Lookup.format_value, h]

/-- Witness for C8 with a one-entry source mapping key `"7"` to the plain
label `"Lean City"`, and with its callable variant. -/
theorem lookup_format_value_spec_witness :
    Lookup.format_value (fun k => if k = "7" then some (.plain "Lean City") else none) none
      = some "<option value=\"\">--------</option>" ∧
    Lookup.format_value (fun k => if k = "7" then some (.plain "Lean City") else none)
      (some "7") = some "<option value=\"7\">Lean City</option>" ∧
    Lookup.format_value (fun k => if k = "7" then some (.callable fun _ => "Lean City") else none)
      (some "7") = some "<option value=\"7\">Lean City</option>" := by
  have h1 := lookup_format_value_spec
    (fun k => if k = "7" then some (.plain "Lean City") else none) "7"
    (.plain "Lean City") (by simp)
  have h2 := lookup_format_value_spec
    (fun k => if k = "7" then some (.callable fun _ => "Lean City") else none) "7"
    (.callable fun _ => "Lean City") (by simp)
  exact ⟨h1.1, h1.2.2.trans (by simp [resolveLabel]), h2.2.2.trans (by simp [resolveLabel])⟩

/-- Claim C9: `SimpleTimeWidget` is built with exactly 48 distinct choices
enumerating every half-hour of the day exactly once — in order, the 48
half-hours from midnight displayed in `'%I:%M %p'` format, so starting at
`12:00 AM` through the AM hours and then `12:00 PM` through the PM hours —
and `value_from_datadict` maps each choice string to its 24-hour
`'%H:%M:%S'` equivalent. -/
theorem simpleTimeChoices_spec :
    simpleTimeChoices.length = 48 ∧
    (simpleTimeChoices.map Prod.fst).Nodup ∧
    simpleTimeChoices.map Prod.fst
      = (List.range 48).map (fun i => fmtTime12 (i / 2) (30 * (i % 2))) ∧
    simpleTimeChoices.map Prod.snd = simpleTimeChoices.map Prod.fst ∧
    simpleTimeChoices.map (fun choice => SimpleTimeWidget.value_from_datadict choice.1)
      = (List.range 48).map (fun i => some (fmtTime24 (i / 2) (30 * (i % 2)) 0)) := by
  refine ⟨by decide, by decide, by decide, by decide, by decide⟩

/-- Claim C10, counterexample: `datetime.time(10, 15, 37)` has minute a
multiple of 15, but the round trip yields `"10:15:00"` while the time's own
`'%H:%M:%S'` rendering is `"10:15:37"` — the widget's three select boxes
carry no seconds, so the round trip does not return `t` formatted
`'%H:%M:%S'`. -/
theorem timeWidget_claim_counterexample :
    timeWidgetRoundTrip ⟨10, 15, 37⟩ = some "10:15:00" ∧
    fmtTime24 10 15 37 = "10:15:37" ∧
    timeWidgetRoundTrip ⟨10, 15, 37⟩ ≠ some (fmtTime24 10 15 37) := by
  decide

set_option maxRecDepth 4000 in
/-- Finite check behind the amended C10: the round trip is exact on every
zero-second time whose minute is a multiple of 15. -/
theorem timeWidget_roundtrip_key : ∀ h < 24, ∀ m < 60, m % 15 = 0 →
    timeWidgetRoundTrip ⟨h, m, 0⟩ = some (fmtTime24 h m 0) := by
  decide

/-- Claim C10 (amended): for every `datetime.time` whose minute is a multiple
of 15, the round trip through `TimeWidget.decompress` and
`TimeWidget.value_from_datadict` returns the time with its seconds dropped,
formatted `'%H:%M:%S'` — hence preserves the time exactly when its second is
0 — and `decompress` of a value that is neither a string nor a time returns
`(None, None, None)`. -/
theorem timeWidget_roundtrip_amended (t : PyTime)
    (hh : t.hour < 24) (hm : t.minute < 60) (h15 : t.minute % 15 = 0) :
    timeWidgetRoundTrip t = some (fmtTime24 t.hour t.minute 0) ∧
    TimeWidget.decompress .other = some (none, none, none) := by
  refine ⟨?_, rfl⟩
  have hdrop : timeWidgetRoundTrip t = timeWidgetRoundTrip ⟨t.hour, t.minute, 0⟩ := rfl
  rw [hdrop]
  exact timeWidget_roundtrip_key t.hour hh t.minute hm h15

/-- Witness for C10 (amended) at `datetime.time(13, 45, 0)`. -/
theorem timeWidget_roundtrip_amended_witness :
    timeWidgetRoundTrip ⟨13, 45, 0⟩ = some "13:45:00" ∧
    TimeWidget.decompress .other = some (none, none, none) := by
  have h := timeWidget_roundtrip_amended ⟨13, 45, 0⟩ (by decide) (by decide) (by decide)
  exact ⟨h.1.trans (by decide), h.2⟩

end GetTogether
